import Mathlib

/-!
Verification of the Conjunction Threat Analysis Engine of the
ruddro-portfolio orbit service.

The definitions below are a shallow embedding of the Python source:

* `handle_task_failure`, `step_fail`, `run_failures` embed the retry /
  dead-letter logic of `SatelliteDataProcessor._handle_task_failure`
  (orbit-service/worker.py) together with the queue-popping worker loop.
* `should_analyze_pair`, `generate_satellite_pairs` embed the pair selector
  (`BatchThreatAnalyzer._should_analyze_pair` / `_generate_satellite_pairs`,
  orbit-service/batch_threat_analysis.py).
* `sample_times`, `closest_approach`, `analyze_pair_collision_risk` embed the
  fixed-step trajectory sampler and per-pair threat construction
  (`BatchThreatAnalyzer._analyze_pair_collision_risk`).  Distances are kept
  as exact squared Euclidean distances over `ℚ` (the source compares
  square roots of these; squaring is strictly monotone on nonnegatives, so
  every comparison made by the source is mirrored exactly — see
  `calculate_threat_level_sq_sq`).
* `calculate_threat_level` embeds `BatchThreatAnalyzer._calculate_threat_level`
  with the source's default thresholds.
* `sort_threats`, `stored_threats` embed the ordering and snapshot logic of
  `BatchThreatAnalyzer._process_analysis_results`.
* `alert_key`, `kv_setex` embed `BatchThreatAnalyzer._create_threat_alert`
  and the overwrite semantics of the key-value store's `setex`.
* `chunks`, `pairs_analyzed_counter` embed the batch partitioning and the
  progress counter of `BatchThreatAnalyzer.run_batch_analysis`.
* `exit_code` embeds the process exit code selection of `main`.
-/

namespace OrbitService

/-! ### Task-queue worker (worker.py) -/

/-- A work item on `satellite_update_queue`.  The Python task dict's
`retry_count` defaults to `0` when absent (`task_data.get('retry_count', 0)`),
so the counter is a total `Nat` here; `last_error` is absent until first
recorded. -/
structure Task where
  id : String
  retry_count : Nat
  last_error : Option String
  deriving DecidableEq, Repr

/-- An entry of the dead-letter queue `satellite_update_dlq`: the failed task
wrapped with the final error (worker.py lines 168-172; the wall-clock
`failed_at` stamp is not modelled). -/
structure DLQEntry where
  task : Task
  error : String
  deriving DecidableEq, Repr

/-- The queue state touched by the worker: the work queue (head = `lpop` side,
tail = `rpush` side) and the dead-letter store. -/
structure WState where
  queue : List Task
  dlq : List DLQEntry
  deriving DecidableEq, Repr

/-- Retry ceiling of `_handle_task_failure` (the literal `3` in
`if retry_count < 3`). -/
def RETRY_CEILING : Nat := 3

/-- Embedding of `SatelliteDataProcessor._handle_task_failure`: below the
ceiling the task is pushed back to the tail of the work queue with the counter
incremented and the error recorded; otherwise it is pushed onto the
dead-letter queue. -/
def handle_task_failure (t : Task) (err : String) (s : WState) : WState :=
  if t.retry_count < RETRY_CEILING then
    { s with queue := s.queue ++
        [{ t with retry_count := t.retry_count + 1, last_error := some err }] }
  else
    { s with dlq := s.dlq ++ [{ task := t, error := err }] }

/-- One iteration of the worker loop in which the popped task fails with
error `err`: `lpop` the head of the queue and run the failure handler on it
(worker.py `process_satellite_data` + `_process_task` failure path). -/
def step_fail (err : String) (s : WState) : WState :=
  match s.queue with
  | [] => s
  | t :: rest => handle_task_failure t err { s with queue := rest }

/-- A run of the worker loop in which every processed item fails, with the
given sequence of errors. -/
def run_failures (errs : List String) (s : WState) : WState :=
  errs.foldl (fun s e => step_fail e s) s

/-! ### Pair selector (batch_threat_analysis.py) -/

/-- The fields of a loaded satellite that the pair selector reads
(`_load_all_satellites` builds `id`, `category` from `CATEGORY` defaulting to
`"unknown"`, and keeps `tle_data`, from which the selector reads
`OBJECT_TYPE` and `PERIOD`).  `period = none` models a missing or
non-numeric `PERIOD` field: in the source both paths (the `0` default and the
caught `ValueError`) make the period similarity check a no-op, exactly as
`none` does below. -/
structure SatelliteInfo where
  id : String
  category : String
  object_type : Option String
  period : Option ℚ
  deriving DecidableEq, Repr

/-- The `priority_categories` list of `_generate_satellite_pairs`. -/
def priority_categories : List String := ["stations", "active", "communications"]

/-- Embedding of `BatchThreatAnalyzer._should_analyze_pair`: priority
categories first, then the debris-debris exclusion, then the 10% period
similarity heuristic, defaulting to inclusion. -/
def should_analyze_pair (sat1 sat2 : SatelliteInfo) : Bool :=
  if sat1.category ∈ priority_categories ∨ sat2.category ∈ priority_categories then
    true
  else if sat1.object_type = some "DEBRIS" ∧ sat2.object_type = some "DEBRIS" then
    false
  else
    match sat1.period, sat2.period with
    | some p1, some p2 =>
        if 0 < p1 ∧ 0 < p2 then
          decide (|p1 - p2| / max p1 p2 < 1 / 10)
        else
          true
    | _, _ => true

/-- Embedding of `BatchThreatAnalyzer._generate_satellite_pairs`: all index
pairs `i < j` over the catalog order, filtered by `should_analyze_pair`. -/
def generate_satellite_pairs : List SatelliteInfo → List (SatelliteInfo × SatelliteInfo)
  | [] => []
  | s :: rest =>
      ((rest.filter (fun t => should_analyze_pair s t)).map (fun t => (s, t)))
        ++ generate_satellite_pairs rest

/-! ### Trajectory sampler (batch_threat_analysis.py) -/

/-- A position or velocity vector in km (resp. km/s), as returned by the
propagation capability. -/
abbrev Vec3 : Type := ℚ × ℚ × ℚ

/-- Squared Euclidean distance between two vectors.  The source computes
`np.linalg.norm(r1 - r2)`; every comparison it makes on that norm is mirrored
here on the square, which is exact over `ℚ`. -/
def dist_sq (a b : Vec3) : ℚ :=
  (a.1 - b.1) ^ 2 + (a.2.1 - b.2.1) ^ 2 + (a.2.2 - b.2.2) ^ 2

/-- The propagation capability for one object: an instant (rational minutes
from epoch) to either `(position, velocity)` or a propagation error
(`none` models a nonzero SGP4 error flag). -/
def Propagator : Type := ℚ → Option (Vec3 × Vec3)

/-- Number of iterations of `while current_time < end_time` when stepping by
`step` from `ws`: the count of naturals `k` with `ws + k * step < we`. -/
def num_samples (ws we step : ℚ) : ℕ := ⌈(we - ws) / step⌉₊

/-- The sample instants visited by the loop, in visit order. -/
def sample_times (ws we step : ℚ) : List ℚ :=
  (List.range (num_samples ws we step)).map (fun k : ℕ => ws + (k : ℚ) * step)

/-- Running state of the closest-approach scan: the minimum squared distance
so far, the instant it occurred, and the two velocity vectors there
(`min_distance` / `closest_time` / `closest_positions` in the source; `none`
plays the role of the initial `float('inf')` / `None`). -/
structure CAResult where
  min_dist_sq : ℚ
  time : ℚ
  vel1 : Vec3
  vel2 : Vec3
  deriving DecidableEq, Repr

/-- One iteration of the sampling loop at instant `t`: if both propagations
succeed, compare the squared distance with the running minimum (strict `<`,
first minimum kept on ties, as in the source); on either propagation error the
instant is skipped and the accumulator is unchanged. -/
def update_min (p1 p2 : Propagator) (acc : Option CAResult) (t : ℚ) : Option CAResult :=
  match p1 t, p2 t with
  | some (r1, v1), some (r2, v2) =>
      match acc with
      | none => some ⟨dist_sq r1 r2, t, v1, v2⟩
      | some c =>
          if dist_sq r1 r2 < c.min_dist_sq then some ⟨dist_sq r1 r2, t, v1, v2⟩
          else some c
  | _, _ => acc

/-- Embedding of the sampling loop of `_analyze_pair_collision_risk`
(lines 246-274): fold `update_min` over the sample instants. -/
def closest_approach (p1 p2 : Propagator) (ws we step : ℚ) : Option CAResult :=
  (sample_times ws we step).foldl (update_min p1 p2) none

/-- The squared distance sampled at instant `t`, or `none` when either
propagation reports an error there. -/
def sample_dist_sq (p1 p2 : Propagator) (t : ℚ) : Option ℚ :=
  match p1 t, p2 t with
  | some (r1, _), some (r2, _) => some (dist_sq r1 r2)
  | _, _ => none

/-- The squared distances of the valid samples of a scan: those instants where
both propagations succeed. -/
def valid_dist_sqs (p1 p2 : Propagator) (times : List ℚ) : List ℚ :=
  times.filterMap (sample_dist_sq p1 p2)

/-! ### Threat classifier (batch_threat_analysis.py) -/

/-- The discrete risk levels, ordered by `severity` below. -/
inductive ThreatLevel where
  | LOW
  | MEDIUM
  | HIGH
  | CRITICAL
  | EMERGENCY
  deriving DecidableEq, Repr

/-- Severity rank: LOW < MEDIUM < HIGH < CRITICAL < EMERGENCY. -/
def severity : ThreatLevel → Nat
  | .LOW => 0
  | .MEDIUM => 1
  | .HIGH => 2
  | .CRITICAL => 3
  | .EMERGENCY => 4

/-- Position of a level in the sort key list
`['EMERGENCY', 'CRITICAL', 'HIGH', 'MEDIUM', 'LOW']` of
`_process_analysis_results` (`.index(...)`). -/
def level_index : ThreatLevel → Nat
  | .EMERGENCY => 0
  | .CRITICAL => 1
  | .HIGH => 2
  | .MEDIUM => 3
  | .LOW => 4

/-- Default of the `HIGH_RISK_THRESHOLD_KM` environment option. -/
def HIGH_RISK_THRESHOLD_KM : ℚ := 10

/-- Default of the `CRITICAL_THRESHOLD_KM` environment option. -/
def CRITICAL_THRESHOLD_KM : ℚ := 2

/-- Embedding of `BatchThreatAnalyzer._calculate_threat_level` on a distance
in km, with the source's default thresholds. -/
def calculate_threat_level (d : ℚ) : ThreatLevel :=
  if d < 1 / 2 then .EMERGENCY
  else if d < CRITICAL_THRESHOLD_KM then .CRITICAL
  else if d < 5 then .HIGH
  else if d < HIGH_RISK_THRESHOLD_KM then .MEDIUM
  else .LOW

/-- The classifier acting on a squared distance: each band bound is squared.
For a nonnegative distance `d` this agrees with `calculate_threat_level d`
applied to the true distance (see `calculate_threat_level_sq_sq`), so the
pipeline below can stay in the exact squared domain. -/
def calculate_threat_level_sq (dsq : ℚ) : ThreatLevel :=
  if dsq < (1 / 2) ^ 2 then .EMERGENCY
  else if dsq < CRITICAL_THRESHOLD_KM ^ 2 then .CRITICAL
  else if dsq < 5 ^ 2 then .HIGH
  else if dsq < HIGH_RISK_THRESHOLD_KM ^ 2 then .MEDIUM
  else .LOW

/-! ### Per-pair threat construction -/

/-- The fields of the threat dict built by `_analyze_pair_collision_risk` that
the later pipeline stages read: the pair ids, the minimum (squared) distance,
its instant, the squared relative velocity at that instant, and the level. -/
structure ThreatRecord where
  sat1_id : String
  sat2_id : String
  min_dist_sq : ℚ
  closest_time : ℚ
  rel_vel_sq : ℚ
  threat_level : ThreatLevel
  deriving DecidableEq, Repr

/-- Embedding of `_analyze_pair_collision_risk`: run the sampling scan; a
threat dict is returned only when the minimum distance is strictly below
`HIGH_RISK_THRESHOLD_KM` (in the squared domain: below its square).  When no
sample was valid the running minimum stays at infinity and the comparison
fails, so no record is produced, as in the source. -/
def analyze_pair_collision_risk (s1 s2 : SatelliteInfo) (p1 p2 : Propagator)
    (ws we step : ℚ) : Option ThreatRecord :=
  match closest_approach p1 p2 ws we step with
  | some c =>
      if c.min_dist_sq < HIGH_RISK_THRESHOLD_KM ^ 2 then
        some { sat1_id := s1.id, sat2_id := s2.id, min_dist_sq := c.min_dist_sq,
               closest_time := c.time, rel_vel_sq := dist_sq c.vel1 c.vel2,
               threat_level := calculate_threat_level_sq c.min_dist_sq }
      else none
  | none => none

/-! ### Result store (batch_threat_analysis.py, `_process_analysis_results`) -/

/-- The sort order of `_process_analysis_results`: ascending lexicographic on
(position of the level in the EMERGENCY-first list, minimum distance).
Ascending on `min_dist_sq` coincides with ascending on distance because
squaring is monotone on nonnegatives. -/
def threat_le (a b : ThreatRecord) : Prop :=
  level_index a.threat_level < level_index b.threat_level ∨
    (level_index a.threat_level = level_index b.threat_level ∧
      a.min_dist_sq ≤ b.min_dist_sq)

instance : DecidableRel threat_le := fun a b =>
  inferInstanceAs (Decidable
    (level_index a.threat_level < level_index b.threat_level ∨
      (level_index a.threat_level = level_index b.threat_level ∧
        a.min_dist_sq ≤ b.min_dist_sq)))

instance : IsTotal ThreatRecord threat_le where
  total a b := by
    unfold threat_le
    rcases Nat.lt_trichotomy (level_index a.threat_level)
      (level_index b.threat_level) with h | h | h
    · exact Or.inl (Or.inl h)
    · rcases le_total a.min_dist_sq b.min_dist_sq with h' | h'
      · exact Or.inl (Or.inr ⟨h, h'⟩)
      · exact Or.inr (Or.inr ⟨h.symm, h'⟩)
    · exact Or.inr (Or.inl h)

instance : IsTrans ThreatRecord threat_le where
  trans a b c hab hbc := by
    unfold threat_le at *
    rcases hab with h1 | ⟨h1, h1d⟩ <;> rcases hbc with h2 | ⟨h2, h2d⟩
    · exact Or.inl (h1.trans h2)
    · exact Or.inl (by omega)
    · exact Or.inl (by omega)
    · exact Or.inr ⟨h1.trans h2, h1d.trans h2d⟩

/-- Embedding of `threats.sort(key=...)`: a stable sort by `threat_le`
(Python's sort is a stable mergesort; insertion sort is also stable, and the
two agree on any list since the key order is total). -/
def sort_threats (ts : List ThreatRecord) : List ThreatRecord :=
  ts.insertionSort threat_le

/-- The persisted `threats:batch:current` snapshot: the top 100 of the sorted
list (`threats[:100]`). -/
def stored_threats (ts : List ThreatRecord) : List ThreatRecord :=
  (sort_threats ts).take 100

/-- Count of the records the stats pass classifies as critical
(`threat_level in ['EMERGENCY', 'CRITICAL']`), i.e. the final
`stats['critical_threats']`. -/
def count_critical_threats (ts : List ThreatRecord) : Nat :=
  (ts.filter (fun t =>
    t.threat_level = ThreatLevel.EMERGENCY ∨ t.threat_level = ThreatLevel.CRITICAL)).length

/-! ### Alert pipeline (batch_threat_analysis.py, `_create_threat_alert`) -/

/-- The stored alert: severity and the originating record
(`created_at` / `batch_analysis_time` stamps are not modelled). -/
structure Alert where
  severity : ThreatLevel
  threat : ThreatRecord
  deriving DecidableEq, Repr

/-- Alert construction from a threat record. -/
def mk_alert (t : ThreatRecord) : Alert := ⟨t.threat_level, t⟩

/-- The individual alert key
`f"alert:batch:{threat['satellite1']['id']}:{threat['satellite2']['id']}"`. -/
def alert_key (t : ThreatRecord) : String :=
  "alert:batch:" ++ t.sat1_id ++ ":" ++ t.sat2_id

/-- An alert store: keyed entries, most recent first. -/
def AlertStore : Type := List (String × Alert)

/-- Overwrite-on-write semantics of the store's `setex`: writing key `k`
replaces any existing entry under `k`. -/
def kv_setex (store : AlertStore) (k : String) (v : Alert) : AlertStore :=
  (k, v) :: store.filter (fun e => ¬ e.1 = k)

/-- Number of stored entries under key `k`. -/
def count_key (store : AlertStore) (k : String) : Nat :=
  (store.filter (fun e => e.1 = k)).length

/-- Embedding of the `setex` call of `_create_threat_alert` (the
`alerts:critical` queue push is the append-only event feed, separate from the
store modelled here). -/
def store_alert (store : AlertStore) (t : ThreatRecord) : AlertStore :=
  kv_setex store (alert_key t) (mk_alert t)

/-! ### Batch orchestrator (batch_threat_analysis.py, `run_batch_analysis`) -/

/-- Number of iterations of `range(0, total, B)`, i.e. `⌈total / B⌉` for a
positive step `B` (a zero step is a `ValueError` in the source and is excluded
by the positivity hypothesis of every theorem below). -/
def num_batches (B total : Nat) : Nat := (total + B - 1) / B

/-- Embedding of the batch partition `pairs[i:i + BATCH_SIZE]` for
`i in range(0, total_pairs, BATCH_SIZE)`. -/
def batches {α : Type} (B : Nat) (l : List α) : List (List α) :=
  (List.range (num_batches B l.length)).map (fun k => (l.drop (k * B)).take B)

/-- The final `stats['pairs_analyzed']` when every batch completes: the
collection loop adds the configured `BATCH_SIZE` once per completed batch,
regardless of that batch's actual length. -/
def pairs_analyzed_counter {α : Type} (B : Nat) (l : List α) : Nat :=
  (batches B l).foldl (fun acc _ => acc + B) 0

/-! ### Process exit code (batch_threat_analysis.py, `main`) -/

/-- Embedding of the exit code selection of `main`: 2 if
`stats['critical_threats'] > 0`, else 1 if `stats['threats_found'] > 0`
(`threats_found` counts every collected record), else 0. -/
def exit_code (ts : List ThreatRecord) : Nat :=
  if 0 < count_critical_threats ts then 2
  else if 0 < ts.length then 1
  else 0

/-! ### Concrete inputs used by witnesses and counterexamples -/

/-- A debris object carrying a priority category tag. -/
def debris_sat1 : SatelliteInfo := ⟨"10001", "communications", some "DEBRIS", some 100⟩

/-- A debris object with an ordinary category tag. -/
def debris_sat2 : SatelliteInfo := ⟨"10002", "debris", some "DEBRIS", some 200⟩

/-- A propagator pinned at the origin. -/
def prop_origin : Propagator := fun _ => some ((0, 0, 0), (0, 0, 0))

/-- A propagator pinned 3 km from the origin along the first axis. -/
def prop_three : Propagator := fun _ => some ((3, 0, 0), (0, 0, 0))

/-- A propagator that reports an error before instant 5 and afterwards sits
5 km from the origin. -/
def prop_flaky : Propagator := fun t =>
  if t < 5 then none else some ((5, 0, 0), (0, 0, 0))

/-- A CRITICAL record for the pair (25544, 43013) with closest approach at
instant 100. -/
def threat_a : ThreatRecord := ⟨"25544", "43013", 1, 100, 0, .CRITICAL⟩

/-- A CRITICAL record for the same pair with closest approach at instant
250. -/
def threat_b : ThreatRecord := ⟨"25544", "43013", 1, 250, 0, .CRITICAL⟩

end OrbitService

namespace OrbitService

/-! ### Helper lemmas -/

/-- A skipped or non-improving sample leaves the accumulator unchanged; a
valid improving sample installs its squared distance, instant and
velocities. -/
lemma update_min_cases (p1 p2 : Propagator) (acc : Option CAResult) (t : ℚ) :
    (update_min p1 p2 acc t = acc ∧ sample_dist_sq p1 p2 t = none) ∨
    (∃ dt c0, sample_dist_sq p1 p2 t = some dt ∧ acc = some c0 ∧
      c0.min_dist_sq ≤ dt ∧ update_min p1 p2 acc t = some c0) ∨
    (∃ dt v1 v2, sample_dist_sq p1 p2 t = some dt ∧
      update_min p1 p2 acc t = some ⟨dt, t, v1, v2⟩ ∧
      ∀ c0, acc = some c0 → dt < c0.min_dist_sq) := by
  unfold update_min sample_dist_sq
  rcases hp1 : p1 t with _ | ⟨r1, v1⟩
  · exact Or.inl ⟨rfl, rfl⟩
  · rcases hp2 : p2 t with _ | ⟨r2, v2⟩
    · exact Or.inl ⟨rfl, rfl⟩
    · rcases acc with _ | c
      · exact Or.inr (Or.inr ⟨dist_sq r1 r2, v1, v2, rfl, rfl, fun c0 h0 => by cases h0⟩)
      · by_cases hlt : dist_sq r1 r2 < c.min_dist_sq
        · refine Or.inr (Or.inr ⟨dist_sq r1 r2, v1, v2, rfl, ?_, ?_⟩)
          · simp [hlt]
          · intro c0 h0
            cases h0
            exact hlt
        · refine Or.inr (Or.inl ⟨dist_sq r1 r2, c, rfl, rfl, le_of_not_lt hlt, ?_⟩)
          simp [hlt]

/-- A sample instant at which either propagation fails is skipped: the
accumulator is unchanged. -/
lemma update_min_skip (p1 p2 : Propagator) (acc : Option CAResult) (t : ℚ)
    (h : p1 t = none ∨ p2 t = none) : update_min p1 p2 acc t = acc := by
  unfold update_min
  rcases h with h | h
  · rw [h]
  · rcases hp1 : p1 t with _ | ⟨r1, v1⟩
    · rfl
    · rw [h]

/-- Every value on the valid-samples list is a squared Euclidean distance,
hence nonnegative. -/
lemma valid_dist_sqs_nonneg (p1 p2 : Propagator) (times : List ℚ) :
    ∀ d ∈ valid_dist_sqs p1 p2 times, 0 ≤ d := by
  intro d hd
  rw [valid_dist_sqs, List.mem_filterMap] at hd
  obtain ⟨t, _, ht⟩ := hd
  unfold sample_dist_sq at ht
  rcases hp1 : p1 t with _ | ⟨r1, v1⟩ <;> rw [hp1] at ht
  · cases ht
  · rcases hp2 : p2 t with _ | ⟨r2, v2⟩ <;> rw [hp2] at ht
    · cases ht
    · obtain rfl : dist_sq r1 r2 = d := by injection ht
      unfold dist_sq
      positivity

/-- The scan result either is the initial accumulator or was installed at one
of the visited instants. -/
lemma foldl_update_min_origin (p1 p2 : Propagator) :
    ∀ (times : List ℚ) (acc : Option CAResult) (c : CAResult),
      times.foldl (update_min p1 p2) acc = some c →
      acc = some c ∨
        (c.time ∈ times ∧ c.min_dist_sq ∈ valid_dist_sqs p1 p2 times) := by
  intro times
  induction times with
  | nil => exact fun acc c h => Or.inl h
  | cons t ts ih =>
    intro acc c h
    rw [List.foldl_cons] at h
    have hmem : ∀ d, sample_dist_sq p1 p2 t = some d →
        d ∈ valid_dist_sqs p1 p2 (t :: ts) := by
      intro d hd
      rw [valid_dist_sqs, List.filterMap_cons_some hd]
      exact List.mem_cons_self _ _
    have hsub : ∀ d ∈ valid_dist_sqs p1 p2 ts, d ∈ valid_dist_sqs p1 p2 (t :: ts) := by
      intro d hd
      rw [valid_dist_sqs, List.mem_filterMap] at hd ⊢
      obtain ⟨u, hu, hud⟩ := hd
      exact ⟨u, List.mem_cons_of_mem _ hu, hud⟩
    rcases ih _ c h with h' | ⟨h1, h2⟩
    · rcases update_min_cases p1 p2 acc t with ⟨he, _⟩ | ⟨dt, c0, hd, ha, _, he⟩ |
        ⟨dt, v1, v2, hd, he, _⟩
      · exact Or.inl (he ▸ h')
      · rw [he] at h'
        exact Or.inl (ha.trans h')
      · rw [he] at h'
        obtain rfl : (⟨dt, t, v1, v2⟩ : CAResult) = c := by injection h'
        exact Or.inr ⟨List.mem_cons_self _ _, hmem _ hd⟩
    · exact Or.inr ⟨List.mem_cons_of_mem _ h1, hsub _ h2⟩

/-- The scan result's squared distance is a lower bound of the initial
accumulator and of every valid sample. -/
lemma foldl_update_min_le (p1 p2 : Propagator) :
    ∀ (times : List ℚ) (acc : Option CAResult) (c : CAResult),
      times.foldl (update_min p1 p2) acc = some c →
      (∀ c0, acc = some c0 → c.min_dist_sq ≤ c0.min_dist_sq) ∧
      ∀ d ∈ valid_dist_sqs p1 p2 times, c.min_dist_sq ≤ d := by
  intro times
  induction times with
  | nil =>
    intro acc c h
    rw [List.foldl_nil] at h
    refine ⟨fun c0 h0 => ?_, fun d hd => absurd hd (by simp [valid_dist_sqs])⟩
    rw [h] at h0
    obtain rfl : c = c0 := by injection h0
    exact le_refl _
  | cons t ts ih =>
    intro acc c h
    rw [List.foldl_cons] at h
    obtain ⟨ihacc, ihlist⟩ := ih _ c h
    have hmemiff : ∀ dt, sample_dist_sq p1 p2 t = some dt →
        ∀ d ∈ valid_dist_sqs p1 p2 (t :: ts), d = dt ∨ d ∈ valid_dist_sqs p1 p2 ts := by
      intro dt hdt d hd
      rw [valid_dist_sqs, List.filterMap_cons_some hdt, List.mem_cons] at hd
      exact hd
    rcases update_min_cases p1 p2 acc t with ⟨he, hnone⟩ | ⟨dt, c0, hs, ha, hge, he⟩ |
      ⟨dt, v1, v2, hs, he, hlt⟩
    · refine ⟨fun c0 h0 => ihacc c0 (by rw [he, h0]), fun d hd => ?_⟩
      rw [valid_dist_sqs, List.filterMap_cons_none hnone] at hd
      exact ihlist d hd
    · have hle0 : c.min_dist_sq ≤ c0.min_dist_sq := ihacc c0 he
      refine ⟨fun c1 h1 => ?_, fun d hd => ?_⟩
      · rw [ha] at h1
        obtain rfl : c0 = c1 := by injection h1
        exact hle0
      · rcases hmemiff dt hs d hd with rfl | hx
        · exact hle0.trans hge
        · exact ihlist d hx
    · have hlen : c.min_dist_sq ≤ dt := ihacc _ he
      refine ⟨fun c0 h0 => hlen.trans (le_of_lt (hlt c0 h0)), fun d hd => ?_⟩
      rcases hmemiff dt hs d hd with rfl | hx
      · exact hlen
      · exact ihlist d hx

/-- A scan whose accumulator is set, or whose valid-sample list is nonempty,
produces a result. -/
lemma foldl_update_min_isSome (p1 p2 : Propagator) :
    ∀ (times : List ℚ) (acc : Option CAResult),
      (acc.isSome ∨ valid_dist_sqs p1 p2 times ≠ []) →
      (times.foldl (update_min p1 p2) acc).isSome := by
  intro times
  induction times with
  | nil =>
    intro acc h
    rcases h with h | h
    · exact h
    · rw [valid_dist_sqs] at h
      simp at h
  | cons t ts ih =>
    intro acc h
    rw [List.foldl_cons]
    rcases update_min_cases p1 p2 acc t with ⟨he, hnone⟩ | ⟨dt, c0, hd, ha, _, he⟩ |
      ⟨dt, v1, v2, hd, he, _⟩
    · refine ih _ ?_
      rw [he]
      rcases h with h | h
      · exact Or.inl h
      · rw [valid_dist_sqs, List.filterMap_cons_none hnone] at h
        exact Or.inr h
    · exact ih _ (Or.inl (by rw [he]; rfl))
    · exact ih _ (Or.inl (by rw [he]; rfl))

/-- A scan all of whose samples fail leaves the accumulator unchanged. -/
lemma foldl_update_min_allfail (p1 p2 : Propagator) :
    ∀ (times : List ℚ) (acc : Option CAResult),
      (∀ t ∈ times, sample_dist_sq p1 p2 t = none) →
      times.foldl (update_min p1 p2) acc = acc := by
  intro times
  induction times with
  | nil => exact fun acc _ => rfl
  | cons t ts ih =>
    intro acc h
    rw [List.foldl_cons]
    rcases update_min_cases p1 p2 acc t with ⟨he, _⟩ | ⟨dt, c0, hd, _, _, _⟩ |
      ⟨dt, v1, v2, hd, _, _⟩
    · rw [he]
      exact ih acc (fun u hu => h u (List.mem_cons_of_mem _ hu))
    · rw [h t (List.mem_cons_self _ _)] at hd
      cases hd
    · rw [h t (List.mem_cons_self _ _)] at hd
      cases hd

/-- A priority-first selection decision never lets a debris-debris pair
through unless a priority category is present. -/
lemma should_analyze_pair_debris {s t : SatelliteInfo}
    (h : should_analyze_pair s t = true)
    (hs : s.object_type = some "DEBRIS") (ht : t.object_type = some "DEBRIS") :
    s.category ∈ priority_categories ∨ t.category ∈ priority_categories := by
  unfold should_analyze_pair at h
  by_cases h1 : s.category ∈ priority_categories ∨ t.category ∈ priority_categories
  · exact h1
  · exfalso
    rw [if_neg h1, if_pos ⟨hs, ht⟩] at h
    exact Bool.false_ne_true h

/-- Concrete evaluation of the sample instants for window `[0, 10]` with
step 5. -/
lemma sample_times_eval : sample_times 0 10 5 = [0, 5] := by
  have hn : num_samples 0 10 5 = 2 := by
    rw [num_samples]
    norm_num
  rw [sample_times, hn]
  norm_num [List.range_succ]

/-- Concrete evaluation of the scan for two constant propagators 3 km
apart. -/
lemma closest_approach_eval :
    closest_approach prop_origin prop_three 0 10 5
      = some ⟨9, 0, (0, 0, 0), (0, 0, 0)⟩ := by
  rw [closest_approach, sample_times_eval]
  simp only [List.foldl_cons, List.foldl_nil, update_min, prop_origin, prop_three]
  norm_num [dist_sq]

/-- Concrete evaluation of the valid-sample list for a propagator that fails
at the first of the two sample instants. -/
lemma valid_dist_sqs_flaky_eval :
    valid_dist_sqs prop_flaky prop_origin (sample_times 0 10 5) = [25] := by
  have h0 : prop_flaky 0 = none := by norm_num [prop_flaky]
  have h5 : prop_flaky 5 = some ((5, 0, 0), (0, 0, 0)) := by norm_num [prop_flaky]
  have hs0 : sample_dist_sq prop_flaky prop_origin 0 = none := by
    simp [sample_dist_sq, h0]
  have hs5 : sample_dist_sq prop_flaky prop_origin 5 = some 25 := by
    simp only [sample_dist_sq, h5, prop_origin]
    norm_num [dist_sq]
  rw [sample_times_eval, valid_dist_sqs, List.filterMap_cons_none hs0,
    List.filterMap_cons_some hs5, List.filterMap_nil]

/-- Concrete evaluation of a full pair analysis: two constant propagators 3 km
apart produce a HIGH record with squared distance 9. -/
lemma analyze_pair_eval :
    analyze_pair_collision_risk debris_sat1 debris_sat2 prop_origin prop_three
      0 10 5 = some ⟨"10001", "10002", 9, 0, 0, .HIGH⟩ := by
  rw [analyze_pair_collision_risk, closest_approach_eval]
  norm_num [HIGH_RISK_THRESHOLD_KM, CRITICAL_THRESHOLD_KM,
    calculate_threat_level_sq, dist_sq, debris_sat1, debris_sat2]

/-- A one-record snapshot stores that record. -/
lemma stored_threats_singleton_mem : threat_a ∈ stored_threats [threat_a] := by
  rw [stored_threats, sort_threats]
  simp [List.insertionSort, List.orderedInsert]

/-- A smaller position in the EMERGENCY-first key list means a strictly
greater severity. -/
lemma level_index_lt_iff {l1 l2 : ThreatLevel} :
    level_index l1 < level_index l2 ↔ severity l2 < severity l1 := by
  cases l1 <;> cases l2 <;> decide

/-- The position in the EMERGENCY-first key list determines the level. -/
lemma level_index_inj (l1 l2 : ThreatLevel)
    (h : level_index l1 = level_index l2) : l1 = l2 := by
  revert h
  cases l1 <;> cases l2 <;> decide

/-- Ceiling division strictly overshoots a total that the divisor does not
divide. -/
lemma ceil_div_overcount (B n : Nat) (hB : 0 < B) (hmod : n % B ≠ 0) :
    n < B * ((n + B - 1) / B) := by
  obtain ⟨q, r, hqr, hrB, hr0⟩ : ∃ q r, n = B * q + r ∧ r < B ∧ r ≠ 0 :=
    ⟨n / B, n % B, (Nat.div_add_mod n B).symm, Nat.mod_lt n hB, hmod⟩
  subst hqr
  have hexp : B * (q + 1) = B * q + B := by ring
  have hrange : B * q + r + B - 1 = B * (q + 1) + (r - 1) := by
    rw [hexp]
    generalize B * q = m
    omega
  have hdiv : (B * q + r + B - 1) / B = q + 1 := by
    rw [hrange, Nat.mul_add_div hB, Nat.div_eq_of_lt (by omega)]
  rw [hdiv, hexp]
  exact Nat.add_lt_add_left hrB (B * q)

/-! ### Claim theorems -/

/-- C1: in the task-queue worker, a work item that fails with its retry
counter below the ceiling (3) is resubmitted to the tail of the queue with the
counter incremented and the error recorded, and one that fails with its
counter at or above the ceiling is moved to the dead-letter store, the queue
untouched.  Moreover, along the worker's own trace of a fresh item failing
repeatedly, the item reaches the dead-letter store exactly once, with
`retry_count` equal to the ceiling, wrapped with the last error, and is never
resubmitted to the work queue afterwards. -/
theorem worker_retry_then_dead_letter
    (t : Task) (err : String) (s : WState) (i e1 e2 e3 e4 e5 : String) :
    (t.retry_count < RETRY_CEILING →
      handle_task_failure t err s =
        { queue := s.queue ++
            [{ t with retry_count := t.retry_count + 1, last_error := some err }],
          dlq := s.dlq }) ∧
    (RETRY_CEILING ≤ t.retry_count →
      handle_task_failure t err s =
        { queue := s.queue, dlq := s.dlq ++ [{ task := t, error := err }] }) ∧
    run_failures [e1, e2, e3] ⟨[⟨i, 0, none⟩], []⟩
      = ⟨[⟨i, RETRY_CEILING, some e3⟩], []⟩ ∧
    run_failures [e1, e2, e3, e4] ⟨[⟨i, 0, none⟩], []⟩
      = ⟨[], [⟨⟨i, RETRY_CEILING, some e3⟩, e4⟩]⟩ ∧
    run_failures [e1, e2, e3, e4, e5] ⟨[⟨i, 0, none⟩], []⟩
      = ⟨[], [⟨⟨i, RETRY_CEILING, some e3⟩, e4⟩]⟩ := by
  refine ⟨fun h => ?_, fun h => ?_, rfl, rfl, rfl⟩
  · unfold handle_task_failure
    rw [if_pos h]
  · unfold handle_task_failure
    rw [if_neg (Nat.not_lt.mpr h)]

/-- Witness for C1 at a concrete task, error and state. -/
theorem worker_retry_then_dead_letter_witness :
    handle_task_failure ⟨"42", 0, none⟩ "boom" ⟨[], []⟩
      = ⟨[⟨"42", 1, some "boom"⟩], []⟩ ∧
    handle_task_failure ⟨"42", 3, some "old"⟩ "boom" ⟨[], []⟩
      = ⟨[], [⟨⟨"42", 3, some "old"⟩, "boom"⟩]⟩ :=
  ⟨(worker_retry_then_dead_letter ⟨"42", 0, none⟩ "boom" ⟨[], []⟩
      "x" "a" "b" "c" "d" "f").1 (by decide),
   (worker_retry_then_dead_letter ⟨"42", 3, some "old"⟩ "boom" ⟨[], []⟩
      "x" "a" "b" "c" "d" "f").2.1 (by decide)⟩

/-- C2 counterexample: the pair selector checks the priority categories before
the debris-debris exclusion, so a catalog containing two debris-type objects,
one of which carries a priority category tag, makes it emit a pair of two
debris-type objects. -/
theorem pair_selector_emits_debris_pair :
    generate_satellite_pairs [debris_sat1, debris_sat2]
      = [(debris_sat1, debris_sat2)] ∧
    debris_sat1.object_type = some "DEBRIS" ∧
    debris_sat2.object_type = some "DEBRIS" := by
  refine ⟨?_, rfl, rfl⟩
  decide

/-- C2 amended: for all catalogs with distinct identities, the pair selector
never emits a pair with an object paired with itself, and never emits a pair
of two debris-type objects unless one of the two carries a category in the
priority set. -/
theorem pair_selector_amended (sats : List SatelliteInfo)
    (hn : (sats.map SatelliteInfo.id).Nodup) :
    ∀ p ∈ generate_satellite_pairs sats,
      p.1.id ≠ p.2.id ∧
      (p.1.object_type = some "DEBRIS" ∧ p.2.object_type = some "DEBRIS" →
        p.1.category ∈ priority_categories ∨ p.2.category ∈ priority_categories) := by
  induction sats with
  | nil =>
    intro p hp
    simp [generate_satellite_pairs] at hp
  | cons s rest ih =>
    intro p hp
    rw [List.map_cons, List.nodup_cons] at hn
    rw [generate_satellite_pairs, List.mem_append] at hp
    rcases hp with hp | hp
    · rw [List.mem_map] at hp
      obtain ⟨t, htf, rfl⟩ := hp
      rw [List.mem_filter] at htf
      obtain ⟨htmem, hsp⟩ := htf
      refine ⟨fun he => hn.1 ?_, fun hd => should_analyze_pair_debris hsp hd.1 hd.2⟩
      exact he ▸ List.mem_map_of_mem SatelliteInfo.id htmem
    · exact ih hn.2 p hp

/-- Witness for C2's amended theorem at a concrete two-object catalog and an
emitted pair. -/
theorem pair_selector_amended_witness :
    ([debris_sat1, debris_sat2].map SatelliteInfo.id).Nodup ∧
    (debris_sat1.id ≠ debris_sat2.id ∧
      (debris_sat1.object_type = some "DEBRIS" ∧
          debris_sat2.object_type = some "DEBRIS" →
        debris_sat1.category ∈ priority_categories ∨
          debris_sat2.category ∈ priority_categories)) :=
  ⟨by decide,
   pair_selector_amended [debris_sat1, debris_sat2] (by decide)
     (debris_sat1, debris_sat2) (by decide)⟩

/-- C3: for a positive step, a window with `window_end ≤ window_start` takes
zero samples and yields no result, and any result produced carries a
nonnegative minimum (squared) distance and a closest-approach instant inside
the window. -/
theorem closest_approach_window (p1 p2 : Propagator) (ws we step : ℚ)
    (hstep : 0 < step) :
    (we ≤ ws → closest_approach p1 p2 ws we step = none) ∧
    ∀ c, closest_approach p1 p2 ws we step = some c →
      0 ≤ c.min_dist_sq ∧ ws ≤ c.time ∧ c.time ≤ we := by
  constructor
  · intro hwe
    have hz : num_samples ws we step = 0 := by
      rw [num_samples, Nat.ceil_eq_zero]
      exact div_nonpos_iff.mpr (Or.inr ⟨by linarith, le_of_lt hstep⟩)
    rw [closest_approach, sample_times, hz]
    rfl
  · intro c hc
    rcases foldl_update_min_origin p1 p2 _ none c hc with h | ⟨htime, hmem⟩
    · cases h
    · refine ⟨valid_dist_sqs_nonneg _ _ _ _ hmem, ?_⟩
      rw [sample_times, List.mem_map] at htime
      obtain ⟨k, hk, hkt⟩ := htime
      rw [List.mem_range] at hk
      have hkx : (k : ℚ) < (we - ws) / step := by
        rw [num_samples] at hk
        exact Nat.lt_ceil.mp hk
      have hks : (k : ℚ) * step < we - ws := (lt_div_iff₀ hstep).mp hkx
      have hk0 : 0 ≤ (k : ℚ) * step :=
        mul_nonneg (Nat.cast_nonneg k) (le_of_lt hstep)
      constructor
      · rw [← hkt]
        linarith
      · rw [← hkt]
        linarith

/-- Witness for C3: an empty window yields no result, and for a window
`[0, 10]` with step 5 and two constant propagators 3 km apart the theorem
gives nonnegativity and containment at the concrete result. -/
theorem closest_approach_window_witness :
    closest_approach prop_origin prop_three 5 0 1 = none ∧
    (0 ≤ (⟨9, 0, (0, 0, 0), (0, 0, 0)⟩ : CAResult).min_dist_sq ∧
      (0 : ℚ) ≤ (⟨9, 0, (0, 0, 0), (0, 0, 0)⟩ : CAResult).time ∧
      (⟨9, 0, (0, 0, 0), (0, 0, 0)⟩ : CAResult).time ≤ 10) :=
  ⟨(closest_approach_window prop_origin prop_three 5 0 1 (by norm_num)).1
      (by norm_num),
   (closest_approach_window prop_origin prop_three 0 10 5 (by norm_num)).2
      ⟨9, 0, (0, 0, 0), (0, 0, 0)⟩ closest_approach_eval⟩

/-- C4: a sample instant at which either propagation reports an error is
skipped without aborting the pair; if every sample fails the pair produces no
result; any produced result is the minimum over the valid samples; and a pair
with at least one valid sample still produces a result. -/
theorem closest_approach_partial_failure (p1 p2 : Propagator) (ws we step : ℚ) :
    (∀ (acc : Option CAResult) (t : ℚ), p1 t = none ∨ p2 t = none →
      update_min p1 p2 acc t = acc) ∧
    ((∀ t ∈ sample_times ws we step, sample_dist_sq p1 p2 t = none) →
      closest_approach p1 p2 ws we step = none) ∧
    (∀ c, closest_approach p1 p2 ws we step = some c →
      c.min_dist_sq ∈ valid_dist_sqs p1 p2 (sample_times ws we step) ∧
        ∀ d ∈ valid_dist_sqs p1 p2 (sample_times ws we step), c.min_dist_sq ≤ d) ∧
    (valid_dist_sqs p1 p2 (sample_times ws we step) ≠ [] →
      (closest_approach p1 p2 ws we step).isSome) := by
  refine ⟨update_min_skip p1 p2, ?_, ?_, ?_⟩
  · intro h
    exact foldl_update_min_allfail p1 p2 _ none h
  · intro c hc
    rcases foldl_update_min_origin p1 p2 _ none c hc with h | ⟨_, hmem⟩
    · cases h
    · exact ⟨hmem, (foldl_update_min_le p1 p2 _ none c hc).2⟩
  · intro h
    exact foldl_update_min_isSome p1 p2 _ none (Or.inr h)

/-- Witness for C4: a propagator failing at the first of two samples still
yields a result, and the skip and minimum clauses hold at that input. -/
theorem closest_approach_partial_failure_witness :
    update_min prop_flaky prop_origin none 0 = none ∧
    (closest_approach prop_flaky prop_origin 0 10 5).isSome :=
  ⟨(closest_approach_partial_failure prop_flaky prop_origin 0 10 5).1 none 0
      (Or.inl (by norm_num [prop_flaky])),
   (closest_approach_partial_failure prop_flaky prop_origin 0 10 5).2.2.2
      (by simp [valid_dist_sqs_flaky_eval])⟩

/-- C5: classification is monotone — a smaller distance never gets a less
severe level, under LOW < MEDIUM < HIGH < CRITICAL < EMERGENCY. -/
theorem calculate_threat_level_monotone (d1 d2 : ℚ) (h : d1 < d2) :
    severity (calculate_threat_level d2) ≤ severity (calculate_threat_level d1) := by
  unfold calculate_threat_level CRITICAL_THRESHOLD_KM HIGH_RISK_THRESHOLD_KM
  split_ifs <;> simp only [severity] <;> first | omega | linarith

/-- Witness for C5 at distances 1 < 3. -/
theorem calculate_threat_level_monotone_witness :
    severity (calculate_threat_level 3) ≤ severity (calculate_threat_level 1) :=
  calculate_threat_level_monotone 1 3 (by norm_num)

/-- The squared-domain classifier agrees with the source classifier on the
true distance, for any nonnegative distance. -/
lemma calculate_threat_level_sq_sq (d : ℚ) (hd : 0 ≤ d) :
    calculate_threat_level_sq (d ^ 2) = calculate_threat_level d := by
  have key : ∀ c : ℚ, 0 < c → (d ^ 2 < c ^ 2 ↔ d < c) := by
    intro c hc
    constructor
    · intro hx
      nlinarith
    · intro hx
      nlinarith
  unfold calculate_threat_level_sq calculate_threat_level
  simp only [key (1 / 2) (by norm_num),
    key CRITICAL_THRESHOLD_KM (by norm_num [CRITICAL_THRESHOLD_KM]),
    key 5 (by norm_num),
    key HIGH_RISK_THRESHOLD_KM (by norm_num [HIGH_RISK_THRESHOLD_KM])]

/-- A squared distance below the squared high-risk threshold is never
classified LOW. -/
lemma calculate_threat_level_sq_ne_LOW (dsq : ℚ)
    (h : dsq < HIGH_RISK_THRESHOLD_KM ^ 2) :
    calculate_threat_level_sq dsq ≠ ThreatLevel.LOW := by
  unfold calculate_threat_level_sq at *
  split_ifs <;> decide

/-- C6: every record emitted by pair analysis has its minimum (squared)
distance strictly below the (squared) high-risk threshold, hence its level is
never LOW; and the persisted snapshot only contains emitted records. -/
theorem threat_record_below_threshold
    (s1 s2 : SatelliteInfo) (p1 p2 : Propagator) (ws we step : ℚ)
    (r : ThreatRecord) (ts : List ThreatRecord) :
    (analyze_pair_collision_risk s1 s2 p1 p2 ws we step = some r →
      r.min_dist_sq < HIGH_RISK_THRESHOLD_KM ^ 2 ∧
        r.threat_level ≠ ThreatLevel.LOW) ∧
    (r ∈ stored_threats ts → r ∈ ts) := by
  constructor
  · intro h
    unfold analyze_pair_collision_risk at h
    split at h
    · split_ifs at h with hlt
      injection h with h'
      subst h'
      exact ⟨hlt, calculate_threat_level_sq_ne_LOW _ hlt⟩
    · cases h
  · intro h
    have h1 : r ∈ sort_threats ts := List.mem_of_mem_take h
    rw [sort_threats] at h1
    exact (List.perm_insertionSort threat_le ts).mem_iff.mp h1

/-- Witness for C6: a concrete pair analysis emitting a HIGH record 3 km
apart, and a concrete stored snapshot membership. -/
theorem threat_record_below_threshold_witness :
    ((⟨"10001", "10002", 9, 0, 0, .HIGH⟩ : ThreatRecord).min_dist_sq
        < HIGH_RISK_THRESHOLD_KM ^ 2 ∧
      (⟨"10001", "10002", 9, 0, 0, .HIGH⟩ : ThreatRecord).threat_level
        ≠ ThreatLevel.LOW) ∧
    threat_a ∈ [threat_a] :=
  ⟨(threat_record_below_threshold debris_sat1 debris_sat2 prop_origin prop_three
      0 10 5 ⟨"10001", "10002", 9, 0, 0, .HIGH⟩ [threat_a]).1
      analyze_pair_eval,
   (threat_record_below_threshold debris_sat1 debris_sat2 prop_origin prop_three
      0 10 5 threat_a [threat_a]).2 stored_threats_singleton_mem⟩

/-- C7: after sorting, any record placed before another is either strictly
more severe, or of the same level with a smaller-or-equal minimum distance;
the persisted top-100 snapshot inherits the same pairwise order. -/
theorem stored_threats_sorted (ts : List ThreatRecord) :
    List.Pairwise
      (fun r1 r2 =>
        severity r2.threat_level < severity r1.threat_level ∨
          (r1.threat_level = r2.threat_level ∧ r1.min_dist_sq ≤ r2.min_dist_sq))
      (sort_threats ts) ∧
    List.Pairwise
      (fun r1 r2 =>
        severity r2.threat_level < severity r1.threat_level ∨
          (r1.threat_level = r2.threat_level ∧ r1.min_dist_sq ≤ r2.min_dist_sq))
      (stored_threats ts) := by
  have hs : List.Pairwise
      (fun r1 r2 =>
        severity r2.threat_level < severity r1.threat_level ∨
          (r1.threat_level = r2.threat_level ∧ r1.min_dist_sq ≤ r2.min_dist_sq))
      (sort_threats ts) := by
    refine (List.sorted_insertionSort threat_le ts).imp ?_
    intro a b hab
    rcases hab with h | ⟨h, hd⟩
    · exact Or.inl (level_index_lt_iff.mp h)
    · exact Or.inr ⟨level_index_inj _ _ h, hd⟩
  exact ⟨hs, hs.sublist (List.take_sublist _ _)⟩

/-- C8 counterexample: the stored alert key is built from the pair ids alone,
so two records for the same pair with different closest-approach times (hence
different rounded times) share one key — the dedup key is not composed of the
pair key plus the rounded closest-approach time. -/
theorem alert_key_ignores_time :
    alert_key threat_a = alert_key threat_b ∧
    threat_a.closest_time ≠ threat_b.closest_time ∧
    threat_a.sat1_id = threat_b.sat1_id ∧
    threat_a.sat2_id = threat_b.sat2_id :=
  ⟨rfl, by decide, rfl, rfl⟩

/-- C8 amended: the alert dedup key is the pair key alone; writing under the
same key overwrites rather than duplicates, so two consecutive cycles
producing records for the same pair key — whatever their closest-approach
times — leave exactly one stored Alert under that key, the later one. -/
theorem alert_dedup_by_pair_key (s : AlertStore) (t1 t2 : ThreatRecord)
    (h1 : t1.sat1_id = t2.sat1_id) (h2 : t1.sat2_id = t2.sat2_id) :
    alert_key t1 = alert_key t2 ∧
    count_key (store_alert (store_alert s t1) t2) (alert_key t1) = 1 ∧
    (store_alert (store_alert s t1) t2).head? = some (alert_key t2, mk_alert t2) := by
  have hk : alert_key t1 = alert_key t2 := by
    unfold alert_key
    rw [h1, h2]
  refine ⟨hk, ?_, rfl⟩
  rw [hk]
  unfold store_alert count_key kv_setex
  rw [List.filter_cons_of_pos (by simp)]
  have : ∀ (l : AlertStore) (k : String),
      (l.filter (fun e => ¬ e.1 = k)).filter (fun e => e.1 = k) = [] := by
    intro l k
    rw [List.filter_eq_nil_iff]
    intro e he
    rw [List.mem_filter] at he
    simpa using he.2
  rw [this]
  rfl

/-- Witness for C8's amended theorem at two concrete records for one pair. -/
theorem alert_dedup_by_pair_key_witness :
    alert_key threat_a = alert_key threat_b ∧
    count_key (store_alert (store_alert [] threat_a) threat_b)
      (alert_key threat_a) = 1 ∧
    (store_alert (store_alert [] threat_a) threat_b).head?
      = some (alert_key threat_b, mk_alert threat_b) :=
  alert_dedup_by_pair_key [] threat_a threat_b rfl rfl

/-- C9: the one-shot batch entry point exits with code 0 when no record was
collected, 2 when some record is EMERGENCY or CRITICAL, and 1 when records
exist but none is EMERGENCY or CRITICAL. -/
theorem exit_code_spec (ts : List ThreatRecord) :
    (ts = [] → exit_code ts = 0) ∧
    ((∃ t ∈ ts, t.threat_level = ThreatLevel.EMERGENCY ∨
        t.threat_level = ThreatLevel.CRITICAL) → exit_code ts = 2) ∧
    (ts ≠ [] →
      (∀ t ∈ ts, ¬(t.threat_level = ThreatLevel.EMERGENCY ∨
        t.threat_level = ThreatLevel.CRITICAL)) → exit_code ts = 1) := by
  refine ⟨fun h => ?_, fun h => ?_, fun hne hall => ?_⟩
  · subst h
    rfl
  · have hpos : 0 < count_critical_threats ts := by
      obtain ⟨t, ht, hcrit⟩ := h
      unfold count_critical_threats
      exact List.length_pos_of_mem (List.mem_filter.mpr ⟨ht, by simpa using hcrit⟩)
    rw [exit_code, if_pos hpos]
  · have hzero : count_critical_threats ts = 0 := by
      unfold count_critical_threats
      rw [List.length_eq_zero, List.filter_eq_nil_iff]
      intro t ht
      simpa using hall t ht
    rw [exit_code, hzero, if_neg (by omega),
      if_pos (List.length_pos.mpr hne)]

/-- Witness for C9 at an empty run, a CRITICAL run and a MEDIUM-only run. -/
theorem exit_code_spec_witness :
    exit_code [] = 0 ∧
    exit_code [threat_a] = 2 ∧
    exit_code [⟨"10001", "10002", 9, 0, 0, .MEDIUM⟩] = 1 :=
  ⟨(exit_code_spec []).1 rfl,
   (exit_code_spec [threat_a]).2.1 ⟨threat_a, by decide, by decide⟩,
   (exit_code_spec [⟨"10001", "10002", 9, 0, 0, .MEDIUM⟩]).2.2 (by decide)
     (by decide)⟩

/-- C10: when every batch completes, the progress counter equals the batch
size times the number of batches — the collection loop adds the full batch
size per batch regardless of that batch's length — and it strictly exceeds
the true number of pairs whenever the pair count is not a multiple of the
batch size. -/
theorem pairs_analyzed_overcount {α : Type} (B : Nat) (l : List α) (hB : 0 < B) :
    pairs_analyzed_counter B l = B * (batches B l).length ∧
    (l.length % B ≠ 0 → l.length < pairs_analyzed_counter B l) := by
  have hfold : ∀ (cs : List (List α)) (n : Nat),
      cs.foldl (fun acc _ => acc + B) n = n + B * cs.length := by
    intro cs
    induction cs with
    | nil => intro n; simp
    | cons c cs ih =>
      intro n
      rw [List.foldl_cons, ih, List.length_cons, Nat.mul_succ]
      ring
  have hlen : (batches B l).length = num_batches B l.length := by
    rw [batches, List.length_map, List.length_range]
  have hcounter : pairs_analyzed_counter B l = B * num_batches B l.length := by
    rw [pairs_analyzed_counter, hfold, hlen, Nat.zero_add]
  refine ⟨by rw [hcounter, hlen], fun hmod => ?_⟩
  rw [hcounter, num_batches]
  exact ceil_div_overcount B l.length hB hmod

/-- Witness for C10: batch size 3 over 7 pairs gives a counter of 9 > 7. -/
theorem pairs_analyzed_overcount_witness :
    pairs_analyzed_counter 3 [1, 2, 3, 4, 5, 6, 7]
      = 3 * (batches 3 [1, 2, 3, 4, 5, 6, 7]).length ∧
    7 < pairs_analyzed_counter 3 [1, 2, 3, 4, 5, 6, 7] :=
  ⟨(pairs_analyzed_overcount 3 [1, 2, 3, 4, 5, 6, 7] (by decide)).1,
   (pairs_analyzed_overcount 3 [1, 2, 3, 4, 5, 6, 7] (by decide)).2 (by decide)⟩

end OrbitService
